import Mathlib

/-!
Verification of the chatgpt-c4 (diagramastext) server core.

The Go sources are shallowly embedded: bytes are `Nat` values below 256,
Go strings are Lean `String`s (byte strings in the token codec are
`List Nat`), `time.Now().UnixMilli()` is threaded as an explicit `Int`
parameter `now`, fallible functions return `Except String` mirroring Go
`error` returns, and the repository (`RepositoryCIAM`) is an explicit
in-memory state record that the client operations thread through.
-/

namespace Ciam

/-! ## PlantUML 6-bit codec (`encode6bit`, `append3bytes`, `encode64`)
from `server/core/httphandler/ciam/ciam.go` (package c4container) and
`server/core/domain/c4container/adapter/plantuml.go` (identical copies). -/

/-- Embedding of Go `encode6bit`: maps a 6-bit value to the PlantUML
alphabet byte (`48+e`, `65+e`, `97+e`, then `-`, `_`, fallback `?`). -/
def encode6bit (e : Nat) : Nat :=
  if e < 10 then 48 + e
  else
    let e1 := e - 10
    if e1 < 26 then 65 + e1
    else
      let e2 := e1 - 26
      if e2 < 26 then 97 + e2
      else
        let e3 := e2 - 26
        if e3 = 0 then 45
        else if e3 = 1 then 95
        else 63

/-- Embedding of Go `append3bytes`: packs three input bytes into four
6-bit values and encodes each with `encode6bit`. -/
def append3bytes (e n t : Nat) : List Nat :=
  let c1 := e >>> 2
  let c2 := (3 &&& e) <<< 4 ||| n >>> 4
  let c3 := (15 &&& n) <<< 2 ||| t >>> 6
  let c4 := 63 &&& t
  [encode6bit (c1 &&& 63), encode6bit (c2 &&& 63),
   encode6bit (c3 &&& 63), encode6bit (c4 &&& 63)]

/-- Embedding of Go `encode64`: the loop steps three bytes at a time;
the `switch len(e)` cases `i+1` / `i+2` are exactly the one-byte and
two-byte final groups, padded with zero bytes. -/
def encode64 : List Nat → List Nat
  | [] => []
  | [a] => append3bytes a 0 0
  | [a, b] => append3bytes a b 0
  | a :: b :: c :: rest => append3bytes a b c ++ encode64 rest

/-! ## Token claims and validation from `server/core/ciam/token.go` -/

/-- `iss` constant. -/
def issURL : String := "https://ciam.diagramastext.dev"

/-- `aud` constant. -/
def audURL : String := "https://diagramastext.dev"

/-- `defaultExpirationDurationIdentity = time.Hour` in milliseconds. -/
def defaultExpirationDurationIdentity : Int := 3600000

/-- `defaultExpirationDurationAccess = time.Hour` in milliseconds. -/
def defaultExpirationDurationAccess : Int := 3600000

/-- `defaultExpirationDurationRefresh = 100 * 24 * time.Hour` in milliseconds. -/
def defaultExpirationDurationRefresh : Int := 100 * 24 * 3600000

/-- Embedding of Go `stdClaims` (`sub`, `iss`, `aud`, `iat`, `exp`;
`iat`/`exp` are `int64` milliseconds since epoch). -/
structure stdClaims where
  Sub : String
  Iss : String
  Aud : String
  Iat : Int
  Exp : Int
  deriving Repr, DecidableEq

/-- Embedding of Go `stdClaims.IsValidToken`; `now` is
`time.Now().UnixMilli()`; `none` models a `nil` error. -/
def IsValidToken (now : Int) (s : stdClaims) : Option String :=
  if s.Iss ≠ issURL then some "wrong issuer"
  else if s.Aud ≠ audURL then some "wrong audience"
  else if s.Exp < now then some "token expired"
  else if s.Iat > s.Exp ∨ s.Iat > now then some "faulty iat"
  else none

/-- Embedding of Go `setExp`: `Exp = Iat + d`. -/
def setExp (c : stdClaims) (d : Int) : stdClaims := { c with Exp := c.Iat + d }

/-- Embedding of Go `newStdClaims` (before `fnOps` are applied):
`Sub = userID`, fixed issuer and audience, `Iat = now`, then `setExp`. -/
def newStdClaims (now : Int) (userID : String) (duration : Int)
    (fnOps : List (stdClaims → stdClaims)) : stdClaims :=
  fnOps.foldl (fun c f => f c)
    (setExp { Sub := userID, Iss := issURL, Aud := audURL, Iat := now, Exp := 0 }
      duration)

/-- Modelled from the spec: the numeric `Role` type of the CIAM engine is not
under `src/` (only `role.Quotas()` / `role.IsValid()` call sites are); the
spec lists exactly four roles — Anonym, RegisteredNotVerified,
RegisteredVerified, Admin — as consecutive numeric values. -/
abbrev Role : Type := Nat

/-- `Role` value Anonym. -/
def Role.anonym : Role := (0 : Nat)

/-- `Role` value RegisteredNotVerified. -/
def Role.registeredNotVerified : Role := (1 : Nat)

/-- `Role` value RegisteredVerified. -/
def Role.registeredVerified : Role := (2 : Nat)

/-- `Role` value Admin. -/
def Role.admin : Role := (3 : Nat)

/-- Embedding of Go `Quotas` (`prompt_length_max`, `rpm`, `rpd`). -/
structure Quotas where
  PromptLengthMax : Nat
  RequestsPerMinute : Nat
  RequestsPerDay : Nat
  deriving Repr, DecidableEq

/-- Modelled from the spec: `role.IsValid()` is not under `src/`; the spec
admits exactly the four listed roles. -/
def Role.IsValid (r : Role) : Bool := (r : Nat) < 4

/-- Modelled from the spec: `role.Quotas()` is not under `src/`; the
canonical Role → Quotas table of spec section 3. -/
def Role.Quotas (r : Role) : Quotas :=
  if (r : Nat) = 0 then ⟨100, 1, 10⟩
  else if (r : Nat) = 1 then ⟨300, 2, 30⟩
  else if (r : Nat) = 2 then ⟨1000, 5, 100⟩
  else if (r : Nat) = 3 then ⟨4000, 60, 10000⟩
  else ⟨0, 0, 0⟩

/-- Embedding of Go `accessTokenClaims`: `stdClaims` plus `role`, `quotas`. -/
structure accessTokenClaims where
  std : stdClaims
  Role : Role
  Quotas : Quotas
  deriving Repr, DecidableEq

/-- Embedding of Go `idTokenClaims`: `stdClaims` plus optional `email` /
`fingerprint` (the spec ID token additionally carries `email_verified`,
used by the second revision of the client in `token.go`). -/
structure idTokenClaims where
  std : stdClaims
  Email : Option String
  Fingerprint : Option String
  EmailVerified : Bool
  deriving Repr, DecidableEq

/-- Embedding of Go `refreshTokenClaims`: only `stdClaims`. -/
structure refreshTokenClaims where
  std : stdClaims
  deriving Repr, DecidableEq

/-- Embedding of Go `issuer.NewAccessToken` at claims level (the claims
that are `json.Marshal`-ed and passed to `serializeAndSign`): an invalid
role is rejected, otherwise the claims embed `role` and `role.Quotas()`. -/
def NewAccessTokenClaims (now : Int) (userID : String) (role : Role)
    (fnOps : List (stdClaims → stdClaims)) : Except String accessTokenClaims :=
  if ¬ role.IsValid then .error "faulty input role"
  else .ok { std := newStdClaims now userID defaultExpirationDurationAccess fnOps,
             Role := role, Quotas := role.Quotas }

/-- Embedding of Go `issuer.ParseAccessToken` after the `parseToken` layer
(signature verification and JSON decoding, modelled by `serializeAndSign` /
`splitDots`): validates the standard claims at time `now`, then requires the
embedded quotas to equal the canonical quotas of the embedded role. -/
def ParseAccessTokenClaims (now : Int) (tkn : accessTokenClaims) :
    Except String (String × Role × Quotas) :=
  match IsValidToken now tkn.std with
  | some e => .error e
  | none =>
      if tkn.Quotas ≠ tkn.Role.Quotas then
        .error "quotas from the token are not up to date"
      else .ok (tkn.std.Sub, tkn.Role, tkn.Quotas)

/-! ## CIAM client from `server/core/ciam/token.go` (the `client` with
`RepositoryCIAM` + `TokenSigningClient`) and, where it differs, the
revision in `server/core/httphandler/ciam/ciam.go`. The repository is an
in-memory state record; `utils.NewUUID`, the generated secret and the SMTP
outcome are explicit parameters; `time.Now()` is the `Int` parameter `now`
(milliseconds). -/

/-- A row of the `user` table: `(user_id, email, fingerprint, is_active,
email_verified)`. -/
structure UserRec where
  id : String
  email : String
  fingerprint : String
  isActive : Bool
  emailVerified : Bool
  deriving Repr, DecidableEq

/-- A row of the `one_time_secret` table: keyed by `user_id`. -/
structure SecretRec where
  secret : String
  iat : Int
  deriving Repr, DecidableEq

/-- The state behind `RepositoryCIAM`. -/
structure RepoState where
  users : List UserRec
  secrets : List (String × SecretRec)
  deriving Repr, DecidableEq

/-- `RepositoryCIAM.LookupUserByFingerprint`: `("" , false)` when absent. -/
def lookupUserByFingerprint (st : RepoState) (fp : String) : String × Bool :=
  match st.users.find? (fun u => u.fingerprint = fp) with
  | some u => (u.id, u.isActive)
  | none => ("", false)

/-- `RepositoryCIAM.LookupUserByEmail`: `("" , false)` when absent. -/
def lookupUserByEmail (st : RepoState) (email : String) : String × Bool :=
  match st.users.find? (fun u => u.email = email) with
  | some u => (u.id, u.isActive)
  | none => ("", false)

/-- `RepositoryCIAM.ReadUser`: `none` models `found = false`. -/
def readUser (st : RepoState) (id : String) : Option UserRec :=
  st.users.find? (fun u => u.id = id)

/-- `RepositoryCIAM.CreateUser`. -/
def createUser (st : RepoState) (u : UserRec) : RepoState :=
  { st with users := st.users ++ [u] }

/-- `RepositoryCIAM.UpdateUserSetEmailVerified`. -/
def updateUserSetEmailVerified (st : RepoState) (id : String) : RepoState :=
  { st with users :=
      st.users.map (fun u => if u.id = id then { u with emailVerified := true } else u) }

/-- `RepositoryCIAM.UpdateUserSetActiveStatus` (used only by the
`httphandler/ciam` revision). -/
def updateUserSetActiveStatus (st : RepoState) (id : String) (a : Bool) : RepoState :=
  { st with users :=
      st.users.map (fun u => if u.id = id then { u with isActive := a } else u) }

/-- `RepositoryCIAM.ReadOneTimeSecret`: `none` models `found = false`. -/
def readOneTimeSecret (st : RepoState) (id : String) : Option SecretRec :=
  (st.secrets.find? (fun p => p.1 = id)).map (fun p => p.2)

/-- `RepositoryCIAM.WriteOneTimeSecret` (upsert). -/
def writeOneTimeSecret (st : RepoState) (id : String) (sec : SecretRec) : RepoState :=
  { st with secrets := (id, sec) :: st.secrets.filter (fun p => p.1 ≠ id) }

/-- `RepositoryCIAM.DeleteOneTimeSecret`. -/
def deleteOneTimeSecret (st : RepoState) (id : String) : RepoState :=
  { st with secrets := st.secrets.filter (fun p => p.1 ≠ id) }

/-- Modelled from the spec: the free `NewAccessToken(userID, emailVerified,
...)` of the second `ciam` revision is not under `src/` (only its callers
are). Per the spec, confirmation elevates the role to `RegisteredVerified`
and `SigninAnonym` issues `role = Anonym`, so the flag picks between those
two roles; the embedded quotas are the canonical quotas of that role. -/
def NewAccessTokenE (now : Int) (userID : String) (emailVerified : Bool) :
    accessTokenClaims :=
  let role := if emailVerified then Role.registeredVerified else Role.anonym
  { std := newStdClaims now userID defaultExpirationDurationAccess [],
    Role := role, Quotas := role.Quotas }

/-- Modelled from the spec: the free `NewIDToken(userID, email, fingerprint,
emailVerified, ...)` is not under `src/`; ID claims per spec section 3. -/
def NewIDTokenE (now : Int) (userID email fingerprint : String)
    (emailVerified : Bool) : idTokenClaims :=
  { std := newStdClaims now userID defaultExpirationDurationIdentity [],
    Email := if email = "" then none else some email,
    Fingerprint := if fingerprint = "" then none else some fingerprint,
    EmailVerified := emailVerified }

/-- Modelled from the spec: the free `NewRefreshToken(userID, ...)` is not
under `src/`; refresh claims are only the standard claims. -/
def NewRefreshTokenE (now : Int) (userID : String) : refreshTokenClaims :=
  { std := newStdClaims now userID defaultExpirationDurationRefresh [] }

/-- The `Tokens` triple (at claims level). -/
structure Tokens where
  id : idTokenClaims
  refresh : refreshTokenClaims
  access : accessTokenClaims
  deriving Repr, DecidableEq

/-- Embedding of Go `client.issueTokens` (identical in both revisions):
mints the ID, Access and Refresh tokens at one `iat`. -/
def issueTokens (now : Int) (userID email fingerprint : String)
    (emailVerified : Bool) : Tokens :=
  { id := NewIDTokenE now userID email fingerprint emailVerified,
    refresh := NewRefreshTokenE now userID,
    access := NewAccessTokenE now userID emailVerified }

/-- The information the client reads off a parsed-and-validated ID token:
`t.UserID()`, `t.UserEmail()`, `t.UserDeviceFingerprint()` (named `Sub` /
`Email` / `Fingerprint` in the `httphandler/ciam` revision). -/
structure IdTokenInfo where
  userID : String
  email : String
  fingerprint : String
  deriving Repr, DecidableEq

/-- Embedding of Go `client.SigninAnonym` (`server/core/ciam/token.go`):
reject empty fingerprint; look up by fingerprint; reject deactivated; create
a user with empty email and `active = true` when absent; issue tokens with
`emailVerified = false`. `newId` is the `utils.NewUUID()` draw. -/
def SigninAnonym (now : Int) (newId : String) (st : RepoState)
    (fingerprint : String) : Except String (Tokens × RepoState) :=
  if fingerprint = "" then .error "fingerprint must be provided"
  else
    let lr := lookupUserByFingerprint st fingerprint
    let userID := lr.1
    let isActive := lr.2
    if userID ≠ "" ∧ ¬ isActive then .error "user was deactivated"
    else if userID = "" then
      let st1 := createUser st
        { id := newId, email := "", fingerprint := fingerprint,
          isActive := true, emailVerified := false }
      .ok (issueTokens now newId "" fingerprint false, st1)
    else .ok (issueTokens now userID "" fingerprint false, st)

/-- Embedding of Go `client.SigninUser` (`server/core/ciam/token.go`):
reject empty email; look up by email; create a user with `active = false`
when absent, else reject deactivated and re-emit the ID token when a stored
secret is inside its 10-minute window (`iat + 10min > now`); otherwise send
a fresh secret by SMTP, persist it and emit an ID token at `now`. `newId`
is the `utils.NewUUID()` draw, `secret` the `generateOnetimeSecret()` draw,
`smtpOk` the outcome of `SendSignInEmail`. -/
def SigninUser (now : Int) (newId secret : String) (smtpOk : Bool)
    (st : RepoState) (email fingerprint : String) :
    Except String (idTokenClaims × RepoState) :=
  if email = "" then .error "email must be provided"
  else
    let issue : String → RepoState → Except String (idTokenClaims × RepoState) :=
      fun userID st0 =>
        if ¬ smtpOk then .error "smtp failure"
        else .ok (NewIDTokenE now userID email fingerprint false,
                  writeOneTimeSecret st0 userID ⟨secret, now⟩)
    let lr := lookupUserByEmail st email
    let userID := lr.1
    let isActive := lr.2
    if userID = "" then
      let st1 := createUser st
        { id := newId, email := email, fingerprint := fingerprint,
          isActive := false, emailVerified := false }
      issue newId st1
    else if ¬ isActive then .error "user was deactivated"
    else
      match readOneTimeSecret st userID with
      | some sec =>
          if sec.iat + 600000 > now then
            .ok (NewIDTokenE sec.iat userID email fingerprint false, st)
          else issue userID st
      | none => issue userID st

/-- Embedding of Go `client.IssueTokensAfterSecretConfirmation`
(`server/core/ciam/token.go`): `parsed` is the outcome of
`ParseToken` + `Validate` on the supplied identity token; on success the
stored secret is read, checked, the user is marked verified, the secret
deleted, and tokens are issued with `emailVerified = true`. -/
def IssueTokensAfterSecretConfirmation (now : Int) (st : RepoState)
    (parsed : Except String IdTokenInfo) (secret : String) :
    Except String Tokens × RepoState :=
  match parsed with
  | .error e => (.error e, st)
  | .ok t =>
      match readOneTimeSecret st t.userID with
      | none => (.error "no secret was sent", st)
      | some secretRef =>
          if secret ≠ secretRef.secret then (.error "secret is wrong", st)
          else
            let st1 := updateUserSetEmailVerified st t.userID
            let st2 := deleteOneTimeSecret st1 t.userID
            (.ok (issueTokens now t.userID t.email t.fingerprint true), st2)

/-- Embedding of Go `client.IssueTokensAfterSecretConfirmation` in the
`server/core/httphandler/ciam/ciam.go` revision: additionally sets the
active status, and calls `issueTokens` with `emailVerified = false`. -/
def IssueTokensAfterSecretConfirmationHH (now : Int) (st : RepoState)
    (parsed : Except String IdTokenInfo) (secret : String) :
    Except String Tokens × RepoState :=
  match parsed with
  | .error e => (.error e, st)
  | .ok t =>
      match readOneTimeSecret st t.userID with
      | none => (.error "no secret was sent", st)
      | some secretRef =>
          if secret ≠ secretRef.secret then (.error "secret is wrong", st)
          else
            let st1 := updateUserSetEmailVerified st t.userID
            let st2 := updateUserSetActiveStatus st1 t.userID true
            let st3 := deleteOneTimeSecret st2 t.userID
            (.ok (issueTokens now t.userID t.email t.fingerprint false), st3)

/-- Embedding of Go `client.RefreshTokens` (`server/core/ciam/token.go`):
`parsed` is the outcome of `ParseToken` + `Validate` on the refresh token;
the user is loaded by `sub` and must exist, be active, and — when an email
is set — have it verified; tokens are re-issued from current attributes. -/
def RefreshTokens (now : Int) (st : RepoState)
    (parsed : Except String IdTokenInfo) : Except String Tokens :=
  match parsed with
  | .error e => .error e
  | .ok t =>
      match readUser st t.userID with
      | none => .error "user not found"
      | some u =>
          if ¬ u.isActive then .error "user was deactivated"
          else if u.email ≠ "" ∧ ¬ u.emailVerified then
            .error "user email was not verified yet"
          else .ok (issueTokens now t.userID u.email u.fingerprint u.emailVerified)

end Ciam

namespace C4

/-- Decidable equality for `Except`, to evaluate `marshal` results on
concrete inputs. -/
instance {e a : Type} [DecidableEq e] [DecidableEq a] : DecidableEq (Except e a) := fun x y =>
  match x, y with
  | .ok v, .ok w =>
      if h : v = w then isTrue (by rw [h])
      else isFalse (by intro hc; cases hc; exact h rfl)
  | .error v, .error w =>
      if h : v = w then isTrue (by rw [h])
      else isFalse (by intro hc; cases hc; exact h rfl)
  | .ok _, .error _ => isFalse (by intro hc; cases hc)
  | .error _, .ok _ => isFalse (by intro hc; cases hc)

/-! ## Graph → C4-PlantUML DSL serializer, from the `c4container` package
(`server/core/httphandler/ciam/ciam.go`, third unit: `marshal`,
`dslSystems`, `dslContainerType`, `dslContainer`, `dslRelation`,
`relationDirection`, `dslFooter`, `dslTitle`, `dslLegend`,
`stringCleaner`). The in-progress `adapter/plantuml.go` copy is dead code:
its `dslSystems` / `dslRelation` bodies are unimplemented stubs and its
`writeStrings` takes the buffer by value. Go builds the system groups in a
`map[string][]string` and `dslSystems` ranges over that map, whose
iteration order Go does not fix; the embedding therefore takes the
iteration order of the non-empty group keys as the explicit parameter
`order`. -/

/-- Embedding of Go `container` (JSON fields `id`, `label`, `technology`,
`description`, `system`, and the four flags). -/
structure Container where
  ID : String := ""
  Label : String := ""
  Technology : String := ""
  Description : String := ""
  System : String := ""
  IsUser : Bool := false
  IsQueue : Bool := false
  IsDatabase : Bool := false
  IsExternal : Bool := false
  deriving Repr, DecidableEq

/-- Embedding of Go `rel` (JSON fields `from`, `to`, `direction`,
`label`, `technology`). -/
structure Rel where
  From : String := ""
  To : String := ""
  Direction : String := ""
  Label : String := ""
  Technology : String := ""
  deriving Repr, DecidableEq

/-- Embedding of Go `c4ContainersGraph`. -/
structure c4ContainersGraph where
  Title : String := ""
  Footer : String := ""
  Containers : List Container := []
  Rels : List Rel := []
  WithLegend : Bool := false
  deriving Repr, DecidableEq

/-- Go `unicode.IsSpace` restricted to the ASCII range (the embedding
handles ASCII text): tab, LF, VT, FF, CR, space. -/
def goIsSpace (c : Char) : Bool :=
  c.toNat = 9 ∨ c.toNat = 10 ∨ c.toNat = 11 ∨ c.toNat = 12 ∨
  c.toNat = 13 ∨ c.toNat = 32

/-- Embedding of Go `stringCleaner`: `strings.TrimSpace` then
`strings.ReplaceAll(s, "\n", "\\n")`. -/
def stringCleaner (s : String) : String :=
  let trimmed := ((s.data.dropWhile goIsSpace).reverse.dropWhile goIsSpace).reverse
  String.mk (trimmed.flatMap (fun c => if c = '\n' then ['\\', 'n'] else [c]))

/-- A single-quote character as a string (kept out of string literals). -/
def sq : String := String.mk [Char.ofNat 39]

/-- Embedding of Go `dslFooter`: the default footer is
`generated by diagramastext.dev - %date(<sq>yyyy-MM-dd<sq>)`. -/
def dslFooter (footer : String) : String :=
  let footer :=
    if footer = "" then
      "generated by diagramastext.dev - %date(" ++ sq ++ "yyyy-MM-dd" ++ sq ++ ")"
    else footer
  "footer \"" ++ stringCleaner footer ++ "\"\n"

/-- Embedding of Go `dslTitle`. -/
def dslTitle (title : String) : String :=
  if title = "" then ""
  else "title \"" ++ stringCleaner title ++ "\"\n"

/-- Embedding of Go `dslLegend`. -/
def dslLegend (withLegend : Bool) : String :=
  if withLegend then "SHOW_LEGEND()\n" else ""

/-- Embedding of Go `dslContainerType` (the live `c4container` copy):
`Person` for a user (the queue/database branch is in the `else` arm),
otherwise `Container` with `Queue` when `IsQueue` else `Db` when
`IsDatabase`; `_Ext` appended when `IsExternal`. -/
def dslContainerType (n : Container) : String :=
  (if n.IsUser then "Person"
   else "Container" ++ (if n.IsQueue then "Queue"
                        else if n.IsDatabase then "Db" else ""))
  ++ (if n.IsExternal then "_Ext" else "")

/-- Embedding of Go `dslContainer`. -/
def dslContainer (n : Container) : String :=
  let label := if n.Label = "" then n.ID else n.Label
  dslContainerType n ++ "(" ++ n.ID ++ ", \"" ++ stringCleaner label ++ "\""
  ++ (if n.Technology ≠ "" then ", \"" ++ stringCleaner n.Technology ++ "\"" else "")
  ++ (if n.Description ≠ "" then ", \"" ++ stringCleaner n.Description ++ "\"" else "")
  ++ ")"

/-- Go `strings.ToUpper` restricted to the ASCII range (the four matched
keys are ASCII, and no non-ASCII character upper-cases to an ASCII
letter). -/
def goToUpper (s : String) : String := String.mk (s.data.map Char.toUpper)

/-- Embedding of Go `relationDirection`: `switch s := strings.ToUpper(s); s`. -/
def relationDirection (s : String) : String :=
  let s := goToUpper s
  if s = "LR" then "R"
  else if s = "RL" then "L"
  else if s = "TD" then "D"
  else if s = "DT" then "U"
  else ""

/-- Embedding of Go `dslRelation`. -/
def dslRelation (l : Rel) : String :=
  let label := if l.Label = "" then "Uses" else l.Label
  "Rel"
  ++ (if relationDirection l.Direction ≠ "" then "_" ++ relationDirection l.Direction else "")
  ++ "(" ++ l.From ++ ", " ++ l.To
  ++ ", \"" ++ stringCleaner label ++ "\""
  ++ (if l.Technology ≠ "" then ", \"" ++ stringCleaner l.Technology ++ "\"" else "")
  ++ ")"

/-- The members of one system group, in container order (Go appends
`dslContainer n` to `groups[n.System]` while iterating `c.Containers`). -/
def groupMembers (cs : List Container) (sys : String) : List String :=
  (cs.filter (fun n => n.System = sys)).map dslContainer

/-- The distinct non-empty system names: the key set of the Go group map
after `delete(tmp, "")` (first-occurrence order; the map itself carries no
order). -/
def nonEmptySystems (cs : List Container) : List String :=
  ((cs.map (fun n => n.System)).filter (fun s => s ≠ "")).eraseDups

/-- One `System_Boundary` block as written by Go `dslSystems`: the id is
the cleaned description with newlines and spaces removed. -/
def dslBoundary (cs : List Container) (groupName : String) : String :=
  let description := stringCleaner groupName
  let id := String.mk (description.data.filter (fun c => ¬ (c = '\n' ∨ c = ' ')))
  "\nSystem_Boundary(" ++ id ++ ", \"" ++ description ++ "\") \x7b\n"
  ++ String.intercalate "\n" (groupMembers cs groupName) ++ "\n\x7d"

/-- Embedding of Go `dslSystems`, with the map iteration order over the
non-empty groups passed as `order`: the empty-system members are written
first, then one boundary block per group. -/
def dslSystems (cs : List Container) (order : List String) : String :=
  String.intercalate "\n" (groupMembers cs "")
  ++ order.foldl (fun acc g => acc ++ dslBoundary cs g) ""

/-- Embedding of Go `marshal` (the live `c4container` copy), with the map
iteration order over the non-empty system groups passed as `order`. -/
def marshal (c : c4ContainersGraph) (order : List String) : Except String String :=
  if c.Containers.isEmpty then .error "no containers found"
  else if c.Containers.any (fun n => n.ID = "") then
    .error "container must be identified: id attribute"
  else if c.Rels.any (fun l => l.From = "" ∨ l.To = "") then
    .error "relation must specify the end nodes: from and to attributes"
  else
    .ok ("@startuml\n!include https://raw.githubusercontent.com/plantuml-stdlib/C4-PlantUML/master/C4_Container.puml\n"
      ++ dslFooter c.Footer ++ dslTitle c.Title
      ++ dslSystems c.Containers order
      ++ "\n"
      ++ String.join (c.Rels.map (fun l => dslRelation l ++ "\n"))
      ++ dslLegend c.WithLegend ++ "@enduml")

end C4

namespace Ciam

theorem append3bytes_length (e n t : Nat) : (append3bytes e n t).length = 4 := rfl

theorem encode64_length (e : List Nat) :
    (encode64 e).length = 4 * ((e.length + 2) / 3) := by
  induction e using encode64.induct with
  | case1 => simp [encode64]
  | case2 a => simp [encode64, append3bytes]
  | case3 a b => simp [encode64, append3bytes]
  | case4 a b c rest ih =>
      simp only [encode64, List.length_append, List.length_cons,
        append3bytes_length, ih]
      omega

/-! ## JWT segment codec from `server/core/ciam/token.go`:
`encodeSegment` is `base64.RawURLEncoding.EncodeToString` (URL-safe
alphabet, no padding); token strings are byte strings (`List Nat`),
the byte 46 is the ASCII dot separating JWT segments. -/

/-- One character of the base64url alphabet: `A-Z`, `a-z`, `0-9`, `-`, `_`
as byte values. -/
def b64urlByte (v : Nat) : Nat :=
  if v < 26 then 65 + v
  else if v < 52 then 97 + (v - 26)
  else if v < 62 then 48 + (v - 52)
  else if v = 62 then 45
  else 95

/-- Embedding of Go `encodeSegment` (`base64.RawURLEncoding.EncodeToString`):
groups of three bytes yield four alphabet bytes; a final group of one or two
bytes yields two or three alphabet bytes, with no padding. -/
def encodeSegment : List Nat → List Nat
  | [] => []
  | [a] => [b64urlByte (a >>> 2), b64urlByte ((3 &&& a) <<< 4)]
  | [a, b] => [b64urlByte (a >>> 2), b64urlByte ((3 &&& a) <<< 4 ||| b >>> 4),
               b64urlByte ((15 &&& b) <<< 2)]
  | a :: b :: c :: rest =>
      b64urlByte (a >>> 2) :: b64urlByte ((3 &&& a) <<< 4 ||| b >>> 4) ::
      b64urlByte ((15 &&& b) <<< 2 ||| c >>> 6) :: b64urlByte (63 &&& c) ::
      encodeSegment rest

/-- Byte string of an ASCII Lean string. -/
def strBytes (s : String) : List Nat := s.data.map Char.toNat

/-- The serialized JWT header `\x7b"alg":"EdDSA","typ":"JWT"\x7d` built by
`NewIssuer` (`json.Marshal` of the header struct). -/
def headerJSONBytes : List Nat := strBytes "\x7b\"alg\":\"EdDSA\",\"typ\":\"JWT\"\x7d"

/-- `issuer.header`: the base64url-encoded serialized header. -/
def headerSegment : List Nat := encodeSegment headerJSONBytes

/-- Embedding of Go `issuer.serializeAndSign`, parametrized by the signing
oracle `sign` (`ed25519` signing with the issuer private key) and the
`json.Marshal`-ed payload bytes: builds
`header ++ "." ++ encodeSegment payload`, signs that signing string, and
appends `"." ++ encodeSegment signature`. -/
def serializeAndSign (sign : List Nat → List Nat) (payload : List Nat) :
    List Nat :=
  let signingStr := headerSegment ++ 46 :: encodeSegment payload
  signingStr ++ 46 :: encodeSegment (sign signingStr)

/-- Embedding of Go `strings.Split(token, ".")` on byte strings. -/
def splitDots : List Nat → List (List Nat)
  | [] => [[]]
  | c :: rest =>
      if c = 46 then [] :: splitDots rest
      else
        match splitDots rest with
        | [] => [[c]]
        | h :: t => (c :: h) :: t

/-- Embedding of the `WithSignature` closure that `client.issueTokens` and
`SigninUser` pass to the token constructors in both client revisions
(`server/core/ciam/token.go` lines 411-415 and 496-500,
`server/core/httphandler/ciam/ciam.go` lines 94-98 and 180-184):

`func(signingString string) (signature string, alg string, err error)
\x7b return c.clientKMS.Sign(ctx, signature) \x7d`

The argument handed to the KMS is the zero-valued named return
`signature` — the empty string — and not the `signingString` parameter, so
the closure ignores its input and always signs the empty byte string.
`kmsSign` is the raw signing oracle of the KMS adapter. -/
def clientKMSSignClosure (kmsSign : List Nat → List Nat) :
    List Nat → List Nat :=
  fun _signingString => kmsSign []

/-- Modelled from the spec: the free token constructors
(`NewIDToken` / `NewAccessToken` / `NewRefreshToken` taking `OptFn`s such
as `WithSignature`) of the second `ciam` revision are not under `src/`
(only their call sites are). Per the spec token format, they build
`base64url(header) ++ "." ++ base64url(payload)` and let the supplied
signing oracle sign it, appending the encoded result as third segment —
operationally `issuer.serializeAndSign` with the `WithSignature` closure
as the oracle. A client-issued token is therefore `serializeAndSign`
applied to the closure built over the KMS oracle. -/
def clientIssuedTokenString (kmsSign : List Nat → List Nat)
    (payload : List Nat) : List Nat :=
  serializeAndSign (clientKMSSignClosure kmsSign) payload

theorem b64urlByte_ne_dot (v : Nat) : b64urlByte v ≠ 46 := by
  unfold b64urlByte
  split_ifs <;> omega

theorem encodeSegment_no_dot (l : List Nat) : ∀ x ∈ encodeSegment l, x ≠ 46 := by
  induction l using encodeSegment.induct with
  | case1 => simp [encodeSegment]
  | case2 a => simp [encodeSegment, b64urlByte_ne_dot]
  | case3 a b => simp [encodeSegment, b64urlByte_ne_dot]
  | case4 a b c rest ih =>
      simp only [encodeSegment, List.mem_cons, List.mem_append]
      rintro x (rfl | rfl | rfl | rfl | hx)
      · exact b64urlByte_ne_dot _
      · exact b64urlByte_ne_dot _
      · exact b64urlByte_ne_dot _
      · exact b64urlByte_ne_dot _
      · exact ih x hx

theorem splitDots_no_dot {l : List Nat} (h : ∀ x ∈ l, x ≠ 46) :
    splitDots l = [l] := by
  induction l with
  | nil => rfl
  | cons c rest ih =>
      have hc : c ≠ 46 := h c (List.mem_cons_self c rest)
      have hrest : ∀ x ∈ rest, x ≠ 46 := fun x hx => h x (List.mem_cons_of_mem c hx)
      simp [splitDots, hc, ih hrest]

theorem splitDots_append {a : List Nat} (b : List Nat)
    (h : ∀ x ∈ a, x ≠ 46) :
    splitDots (a ++ 46 :: b) = a :: splitDots b := by
  induction a with
  | nil => simp [splitDots]
  | cons c rest ih =>
      have hc : c ≠ 46 := h c (List.mem_cons_self c rest)
      have hrest : ∀ x ∈ rest, x ≠ 46 := fun x hx => h x (List.mem_cons_of_mem c hx)
      simp [splitDots, hc, ih hrest]

/-- Segment structure of `issuer.serializeAndSign`: for every payload and
every signing oracle, the produced token splits on `.` into exactly three
segments — the base64url header, the base64url payload, and the base64url
encoding of whatever the oracle returned on the signing string
`base64url(header) ++ "." ++ base64url(payload)`. -/
theorem serializeAndSign_segments
    (sign : List Nat → List Nat) (payload : List Nat) :
    splitDots (serializeAndSign sign payload) =
      [headerSegment, encodeSegment payload,
       encodeSegment (sign (headerSegment ++ 46 :: encodeSegment payload))] := by
  have hh : ∀ x ∈ headerSegment, x ≠ 46 := encodeSegment_no_dot headerJSONBytes
  have hp : ∀ x ∈ encodeSegment payload, x ≠ 46 := encodeSegment_no_dot payload
  have hs : ∀ x ∈ encodeSegment
      (sign (headerSegment ++ 46 :: encodeSegment payload)), x ≠ 46 :=
    encodeSegment_no_dot _
  unfold serializeAndSign
  rw [List.append_assoc, List.cons_append,
    splitDots_append _ hh, splitDots_append _ hp, splitDots_no_dot hs]

/-- C1 (divergence witness): the claim quantifies over every token issued
via sign-in, confirmation or refresh, but on those paths the
`WithSignature` closure hands the KMS its own zero-valued named return
instead of the signing string. Evaluated at payload `[1, 2, 3]` with the
KMS oracle prepending byte 7: the issued token splits into header, payload
and a third segment encoding the signature of the EMPTY string, and that
segment differs from the encoding of the signature over the signing string
`base64url(header) ++ "." ++ base64url(payload)` that the claim (and the
in-src `issuer.serializeAndSign` path, and the clients own `Validate`
closure, which does pass `signingString`) requires. -/
theorem claim_C1_client_signature_not_over_signing_string :
    splitDots (clientIssuedTokenString (fun bs => 7 :: bs) [1, 2, 3])
      = [headerSegment, encodeSegment [1, 2, 3],
         encodeSegment (7 :: ([] : List Nat))] ∧
    encodeSegment (7 :: ([] : List Nat))
      ≠ encodeSegment (7 :: (headerSegment ++ 46 :: encodeSegment [1, 2, 3])) := by
  refine ⟨serializeAndSign_segments _ _, by decide⟩

/-- C9: `encode64` consumes the input three bytes per group, emitting four
output characters per group and padding a short final group with zero
bytes, so its output length is exactly `4 * ceil(len(e) / 3)`, a multiple
of 4. -/
theorem claim_C9_encode64_length (e : List Nat) :
    (encode64 e).length = 4 * ((e.length + 2) / 3) ∧
      4 ∣ (encode64 e).length := by
  refine ⟨encode64_length e, ?_⟩
  rw [encode64_length e]
  exact Dvd.intro _ rfl

/-- C3 counterexample: the claim asserts an access token issued at `t0` is
invalid at every `t ≥ t0 + 1h` (`exp` strictly greater than `now`), but
`stdClaims.IsValidToken` only rejects `exp < now`: at exactly
`t = t0 + 1h` (here `t0 = 0`, `t = 3600000`) validation succeeds. -/
theorem claim_C3_counterexample :
    (3600000 : Int) ≥ 0 + defaultExpirationDurationAccess ∧
      IsValidToken 3600000
        (newStdClaims 0 "u" defaultExpirationDurationAccess []) = none := by
  constructor
  · decide
  · decide

/-- C3 (amended): an access token issued at `t0` with the default 1h
lifetime validates at exactly the times `t0 ≤ t ≤ t0 + 1h`; it is rejected
for `t > t0 + 1h` (the code accepts `exp = now`) and for `t < t0`
(faulty `iat`). -/
theorem claim_C3_validity_window (t0 t : Int) (userID : String) :
    IsValidToken t (newStdClaims t0 userID defaultExpirationDurationAccess [])
      = none ↔ t0 ≤ t ∧ t ≤ t0 + 3600000 := by
  simp only [IsValidToken, newStdClaims, setExp, List.foldl_nil,
    defaultExpirationDurationAccess]
  simp only [ne_eq, not_true_eq_false, if_false, ite_eq_right_iff]
  split_ifs with h1 h2 <;>
    simp only [reduceCtorEq, false_iff, not_and, not_le, true_iff] <;> omega

/-- C2: for every user id and valid role, `ParseAccessToken` applied (at
issue time) to the claims freshly minted by `NewAccessToken` succeeds and
returns that user id, that role, and the canonical quotas of the role; and any
access token claims whose embedded quotas differ from the canonical quotas
of the embedded role are rejected at every validation time (stale access
token). -/
theorem claim_C2_access_token_quotas
    (now : Int) (userID : String) (role : Role) (hrole : role.IsValid = true)
    (t : Int) (tkn : accessTokenClaims) (hq : tkn.Quotas ≠ tkn.Role.Quotas) :
    (NewAccessTokenClaims now userID role []).bind (ParseAccessTokenClaims now)
        = .ok (userID, role, role.Quotas) ∧
      ∃ e, ParseAccessTokenClaims t tkn = .error e := by
  constructor
  · have h1 : ¬ ((now + (3600000 : Int)) < now) := by omega
    have h2 : ¬ ((now : Int) > now + 3600000 ∨ now > now) := by omega
    simp [NewAccessTokenClaims, hrole, Except.bind, ParseAccessTokenClaims,
      IsValidToken, newStdClaims, setExp, defaultExpirationDurationAccess,
      h1, h2]
  · cases hv : IsValidToken t tkn.std with
    | some e => exact ⟨e, by unfold ParseAccessTokenClaims; rw [hv]⟩
    | none =>
        refine ⟨"quotas from the token are not up to date", ?_⟩
        unfold ParseAccessTokenClaims
        rw [hv]
        simp [hq]

/-- C2 witness: concrete instantiation at `now = 0`, user `"u"`, role
Anonym, and a stale claims record embedding zero quotas. -/
theorem claim_C2_access_token_quotas_witness :
    Role.anonym.IsValid = true ∧
    ({ std := ⟨"u", issURL, audURL, 0, 0⟩, Role := Role.anonym,
       Quotas := ⟨0, 0, 0⟩ } : accessTokenClaims).Quotas ≠
        Role.anonym.Quotas ∧
    ((NewAccessTokenClaims 0 "u" Role.anonym []).bind (ParseAccessTokenClaims 0)
        = .ok ("u", Role.anonym, Role.anonym.Quotas) ∧
      ∃ e, ParseAccessTokenClaims 0
        ({ std := ⟨"u", issURL, audURL, 0, 0⟩, Role := Role.anonym,
           Quotas := ⟨0, 0, 0⟩ } : accessTokenClaims) = .error e) :=
  ⟨by decide, by decide,
    claim_C2_access_token_quotas 0 "u" Role.anonym (by decide) 0 _ (by decide)⟩

/-- C7: when a one-time secret is stored for the subject of the validated
identity token but the supplied secret differs from it,
`IssueTokensAfterSecretConfirmation` fails with the wrong-secret error and
returns the repository state unchanged — in particular the stored secret is
not deleted and the `email_verified` flag of the user is not set. -/
theorem claim_C7_wrong_secret_leaves_state
    (now : Int) (st : RepoState) (info : IdTokenInfo) (secret : String)
    (sec : SecretRec) (hread : readOneTimeSecret st info.userID = some sec)
    (hne : secret ≠ sec.secret) :
    IssueTokensAfterSecretConfirmation now st (.ok info) secret
      = (.error "secret is wrong", st) := by
  unfold IssueTokensAfterSecretConfirmation
  dsimp only
  rw [hread]
  simp [hne]

/-- C7 witness: concrete repository holding secret `"abc123"` for `"u1"`,
confirmation attempted with `"zzz"`. -/
theorem claim_C7_wrong_secret_leaves_state_witness :
    readOneTimeSecret
        ⟨[⟨"u1", "a@b", "fp", true, false⟩], [("u1", ⟨"abc123", 5⟩)]⟩
        (IdTokenInfo.mk "u1" "a@b" "fp").userID = some ⟨"abc123", 5⟩ ∧
    ("zzz" : String) ≠ "abc123" ∧
    IssueTokensAfterSecretConfirmation 0
        ⟨[⟨"u1", "a@b", "fp", true, false⟩], [("u1", ⟨"abc123", 5⟩)]⟩
        (.ok ⟨"u1", "a@b", "fp"⟩) "zzz"
      = (.error "secret is wrong",
         ⟨[⟨"u1", "a@b", "fp", true, false⟩], [("u1", ⟨"abc123", 5⟩)]⟩) :=
  ⟨by decide, by decide,
    claim_C7_wrong_secret_leaves_state 0 _ _ "zzz" ⟨"abc123", 5⟩
      (by decide) (by decide)⟩

/-- C10: the two sign-in flows create users with opposite activation
states — `SigninAnonym` creates an active user with empty email when the
fingerprint is unknown, `SigninUser` creates an inactive user when the
email is unknown — and `RefreshTokens` rejects every user whose non-empty
email is not yet verified (eligible only after confirmation). -/
theorem claim_C10_signin_activation_states
    (now : Int) (newId secret fp email : String) (st : RepoState)
    (info : IdTokenInfo) (u : UserRec)
    (hfp : fp ≠ "") (hlf : (lookupUserByFingerprint st fp).1 = "")
    (hem : email ≠ "") (hle : (lookupUserByEmail st email).1 = "")
    (hru : readUser st info.userID = some u) (hue : u.email ≠ "")
    (huv : u.emailVerified = false) :
    SigninAnonym now newId st fp
        = .ok (issueTokens now newId "" fp false,
            createUser st ⟨newId, "", fp, true, false⟩) ∧
    SigninUser now newId secret true st email fp
        = .ok (NewIDTokenE now newId email fp false,
            writeOneTimeSecret (createUser st ⟨newId, email, fp, false, false⟩)
              newId ⟨secret, now⟩) ∧
    ∃ e, RefreshTokens now st (.ok info) = .error e := by
  refine ⟨?_, ?_, ?_⟩
  · unfold SigninAnonym
    simp [hfp, hlf]
  · unfold SigninUser
    simp [hem, hle]
  · cases hA : u.isActive with
    | false =>
        exact ⟨"user was deactivated", by unfold RefreshTokens; dsimp only; rw [hru]; simp [hA]⟩
    | true =>
        exact ⟨"user email was not verified yet",
          by unfold RefreshTokens; dsimp only; rw [hru]; simp [hA, hue, huv]⟩

/-- C10 witness: an empty-fingerprint lookup and empty-email lookup on a
repository holding one unverified email user `"u1"`. -/
theorem claim_C10_signin_activation_states_witness :
    (("fp2" : String) ≠ "" ∧
      (lookupUserByFingerprint ⟨[⟨"u1", "x@y", "fpX", true, false⟩], []⟩ "fp2").1 = "" ∧
      ("a2@b" : String) ≠ "" ∧
      (lookupUserByEmail ⟨[⟨"u1", "x@y", "fpX", true, false⟩], []⟩ "a2@b").1 = "") ∧
    (SigninAnonym 7 "id9" ⟨[⟨"u1", "x@y", "fpX", true, false⟩], []⟩ "fp2"
        = .ok (issueTokens 7 "id9" "" "fp2" false,
            createUser ⟨[⟨"u1", "x@y", "fpX", true, false⟩], []⟩
              ⟨"id9", "", "fp2", true, false⟩) ∧
      SigninUser 7 "id9" "s3c" true ⟨[⟨"u1", "x@y", "fpX", true, false⟩], []⟩
          "a2@b" "fp2"
        = .ok (NewIDTokenE 7 "id9" "a2@b" "fp2" false,
            writeOneTimeSecret
              (createUser ⟨[⟨"u1", "x@y", "fpX", true, false⟩], []⟩
                ⟨"id9", "a2@b", "fp2", false, false⟩) "id9" ⟨"s3c", 7⟩) ∧
      ∃ e, RefreshTokens 7 ⟨[⟨"u1", "x@y", "fpX", true, false⟩], []⟩
          (.ok ⟨"u1", "", ""⟩) = .error e) :=
  ⟨⟨by decide, by decide, by decide, by decide⟩,
    claim_C10_signin_activation_states 7 "id9" "s3c" "fp2" "a2@b"
      ⟨[⟨"u1", "x@y", "fpX", true, false⟩], []⟩ ⟨"u1", "", ""⟩
      ⟨"u1", "x@y", "fpX", true, false⟩
      (by decide) (by decide) (by decide) (by decide) (by decide) (by decide)
      (by decide)⟩

end Ciam




namespace Ciam

/-- C6 (divergence witness): with the user `"u1"` holding the pending
secret `"123abc"`, a successful confirmation through the
`server/core/ciam/token.go` client issues an access token with role
RegisteredVerified (it calls `issueTokens` with `emailVerified = true`),
while the `server/core/httphandler/ciam/ciam.go` revision calls
`issueTokens` with `emailVerified = false`, so its access token embeds the
non-elevated role — contradicting the claim for that revision. -/
theorem claim_C6_confirmation_role_divergence :
    ((IssueTokensAfterSecretConfirmation 0
          ⟨[⟨"u1", "a@b", "fp", false, false⟩], [("u1", ⟨"123abc", 0⟩)]⟩
          (.ok ⟨"u1", "a@b", "fp"⟩) "123abc").1.map
        (fun tk => tk.access.Role) = .ok Role.registeredVerified) ∧
    ((IssueTokensAfterSecretConfirmationHH 0
          ⟨[⟨"u1", "a@b", "fp", false, false⟩], [("u1", ⟨"123abc", 0⟩)]⟩
          (.ok ⟨"u1", "a@b", "fp"⟩) "123abc").1.map
        (fun tk => tk.access.Role) = .ok Role.anonym) ∧
    Role.anonym ≠ Role.registeredVerified := by
  refine ⟨by decide, by decide, by decide⟩

end Ciam

namespace C4

/-- C5 counterexample: the live `dslContainerType` emits base `Person`
(not `User`) for a user container, and emits the `Queue` marker (not a
plain `Container`) when both `is_queue` and `is_database` are set. -/
theorem claim_C5_counterexample :
    dslContainerType { ID := "u", IsUser := true } = "Person" ∧
    dslContainerType { ID := "u", IsUser := true } ≠ "User" ∧
    dslContainerType { ID := "x", IsQueue := true, IsDatabase := true }
        = "ContainerQueue" ∧
    dslContainerType { ID := "x", IsQueue := true, IsDatabase := true }
        ≠ "Container" := by
  refine ⟨by decide, by decide, by decide, by decide⟩

/-- C5 (amended): the emitted DSL tag is base `Person` when `is_user` is
true (suppressing the queue/database markers), otherwise `Container`
followed by `Queue` when `is_queue` is true (regardless of `is_database`),
else `Db` when `is_database` is true; `_Ext` is appended when
`is_external` is true. -/
theorem claim_C5_container_tag (id label tech desc sys : String)
    (u q d e : Bool) :
    dslContainerType
        { ID := id, Label := label, Technology := tech, Description := desc,
          System := sys, IsUser := u, IsQueue := q, IsDatabase := d,
          IsExternal := e }
      = (if u then "Person" else "Container")
        ++ (if u = false ∧ q = true then "Queue"
            else if u = false ∧ q = false ∧ d = true then "Db" else "")
        ++ (if e then "_Ext" else "") := by
  cases u <;> cases q <;> cases d <;> cases e <;> rfl

/-- C8 counterexample: `"lr"` is not one of `"LR"`, `"RL"`, `"TD"`, `"DT"`,
yet `relationDirection` maps it to `"R"`, not to the empty string, because
the switch is taken on `strings.ToUpper(s)`. -/
theorem claim_C8_counterexample :
    relationDirection "lr" = "R" ∧
    ¬(("lr" : String) = "LR" ∨ ("lr" : String) = "RL" ∨
      ("lr" : String) = "TD" ∨ ("lr" : String) = "DT") ∧
    ("R" : String) ≠ "" := by
  refine ⟨by decide, by decide, by decide⟩

/-- C8 (amended): the direction mapping is applied to the upper-cased
input: it emits `R`/`L`/`D`/`U` exactly when the upper-cased string is
`LR`/`RL`/`TD`/`DT` respectively, and the empty string (suppressing the
`_<dir>` suffix) whenever the upper-cased string is none of the four. -/
theorem claim_C8_direction_mapping (s : String) :
    (relationDirection s = "R" ↔ goToUpper s = "LR") ∧
    (relationDirection s = "L" ↔ goToUpper s = "RL") ∧
    (relationDirection s = "D" ↔ goToUpper s = "TD") ∧
    (relationDirection s = "U" ↔ goToUpper s = "DT") ∧
    (goToUpper s ∉ (["LR", "RL", "TD", "DT"] : List String) →
      relationDirection s = "") := by
  unfold relationDirection
  dsimp only
  split_ifs with h1 h2 h3 h4 <;> simp_all

/-- C8 witness: `"foobar"` upper-cases to `"FOOBAR"`, outside the four
keys, and is mapped to the empty string. -/
theorem claim_C8_direction_mapping_witness :
    goToUpper "foobar" ∉ (["LR", "RL", "TD", "DT"] : List String) ∧
    relationDirection "foobar" = "" :=
  ⟨by decide, (claim_C8_direction_mapping "foobar").2.2.2.2 (by decide)⟩

set_option maxRecDepth 40000

/-- C4 (divergence witness): for the graph with containers `a` in system
`"A"` and `b` in system `"B"`, both `["A", "B"]` and `["B", "A"]` are
orders of the key set of the group map, and `marshal` produces different DSL
text under the two orders — the serialization is not a function of the
graph alone, because Go map iteration order is unspecified. -/
theorem claim_C4_marshal_order_dependent :
    (["A", "B"] : List String).Perm
        (nonEmptySystems [{ ID := "a", System := "A" },
                          { ID := "b", System := "B" }]) ∧
    (["B", "A"] : List String).Perm
        (nonEmptySystems [{ ID := "a", System := "A" },
                          { ID := "b", System := "B" }]) ∧
    marshal { Containers := [{ ID := "a", System := "A" },
                             { ID := "b", System := "B" }] } ["A", "B"]
      ≠ marshal { Containers := [{ ID := "a", System := "A" },
                                 { ID := "b", System := "B" }] } ["B", "A"] := by
  refine ⟨by decide, by decide, by decide⟩

end C4
